import Mathlib

/-!
# Verification of the TelemetryFlow MCP protocol engine

A shallow embedding, in Lean 4, of the protocol core of the
`telemetryflow-python-mcp` server: the JSON-RPC envelope handling
(`presentation/server/server.py`), the session aggregate
(`domain/aggregates/session.py`), the capability entities
(`domain/entities/{tool,resource,prompt}.py`), and the tool invocation
pipeline (`application/handlers/tool_handler.py`) together with the
metric-recording wrapper (`infrastructure/telemetry/client.py`).

Conventions of the embedding:
* Python/JSON values are modelled by the inductive `JVal`; a Python `None`
  and a JSON `null` are both `JVal.null` (as in CPython, where
  `json.loads` maps `null` to `None`).
* Python exceptions are modelled by `PyErr` carried in `Except`;
  `PyErr.valueError` is the validation class (`ValueError`), every other
  exception is `PyErr.otherError` with its type name and message.
* Mutation of the session / server objects is modelled by explicit state
  passing; a handler returns `Except PyErr α × State` so that mutations
  performed before a raise survive it, as they do on the shared Python
  objects.
* Wall-clock readings (`datetime.now`, `time.monotonic`) and random id
  generation are modelled as explicit parameters.
* Stored callables (tool handlers, resource readers, prompt generators)
  are modelled as Lean functions returning their observable outcome;
  a tool handler may additionally `hang`, which `asyncio.wait_for`
  converts into a `TimeoutError`.
-/

set_option autoImplicit false

namespace TfoMcp

/-- JSON / Python values as they flow through the engine. -/
inductive JVal where
  | null
  | bool (b : Bool)
  | num (n : Int)
  | str (s : String)
  | arr (xs : List JVal)
  | obj (kvs : List (String × JVal))

/-- Python `d.get(k, default)`: the default is used only when the key is
absent; a key bound to `null` yields `JVal.null`. First binding wins, as
in a `dict` (our association lists keep at most one binding per key when
built by the registry operations, and a plain `dict` lookup returns the
single binding). -/
def pyGetD (kvs : List (String × JVal)) (k : String) (d : JVal) : JVal :=
  match kvs.lookup k with
  | some v => v
  | none => d

/-- Python `d.get(k)` (default `None`). -/
def pyGet (kvs : List (String × JVal)) (k : String) : JVal :=
  pyGetD kvs k JVal.null

/-- Python `v == s` for a string literal `s`: only a `str` compares equal. -/
def jvalEqStr (v : JVal) (s : String) : Bool :=
  match v with
  | JVal.str t => t == s
  | _ => false

/-- Python `v is None`. -/
def jvalIsNull (v : JVal) : Bool :=
  match v with
  | JVal.null => true
  | _ => false

/-- Python truthiness of a JSON value. -/
def jvalTruthy (v : JVal) : Bool :=
  match v with
  | JVal.null => false
  | JVal.bool b => b
  | JVal.num n => n != 0
  | JVal.str s => s != ""
  | JVal.arr xs => !xs.isEmpty
  | JVal.obj kvs => !kvs.isEmpty

/-- Python type name of a value, as it appears in `AttributeError` texts. -/
def pyTypeName (v : JVal) : String :=
  match v with
  | JVal.null => "NoneType"
  | JVal.bool _ => "bool"
  | JVal.num _ => "int"
  | JVal.str _ => "str"
  | JVal.arr _ => "list"
  | JVal.obj _ => "dict"

/-- Python `str(v)`. Scalar cases are exact; the rendering of containers
(only ever interpolated into log/error message text, which no verified
statement inspects) is abbreviated rather than reproducing CPython's
`repr`-based element rendering. -/
def pyStr (v : JVal) : String :=
  match v with
  | JVal.null => "None"
  | JVal.bool b => if b then "True" else "False"
  | JVal.num n => toString n
  | JVal.str s => s
  | JVal.arr _ => "[...]"
  | JVal.obj _ => "\x7b...\x7d"

/-- Message of the `AttributeError` raised by `v.attr` on a value without
that attribute, e.g. `'int' object has no attribute 'get'`. -/
def pyNoAttrMsg (v : JVal) (attr : String) : String :=
  "\x27" ++ pyTypeName v ++ "\x27 object has no attribute \x27" ++ attr ++ "\x27"

/-- Message of the `TypeError` raised by a `dict` operation on an
unhashable key, e.g. `unhashable type: 'list'`. -/
def pyUnhashableMsg (v : JVal) : String :=
  "unhashable type: \x27" ++ pyTypeName v ++ "\x27"

/-- Message of the `TypeError` raised by `x in v` on a non-container,
e.g. `argument of type 'int' is not iterable`. -/
def pyNotIterableMsg (v : JVal) : String :=
  "argument of type \x27" ++ pyTypeName v ++ "\x27 is not iterable"

/-- Python `str(x)` of a whole-number float: the engine's timeouts are
floats whose defaults are whole seconds, kept as `Nat` here and rendered
with the trailing `.0` CPython gives them (`str(30.0) = "30.0"`). -/
def pyFloatStr (n : Nat) : String := toString n ++ ".0"

/-- Python substring membership `sub in s` on strings. -/
def strContainsSub (s sub : String) : Bool :=
  (List.range (s.data.length + 1)).any
    (fun i => sub.data.isPrefixOf (s.data.drop i))

/-- A Python exception: `valueError` is the validation class the engine
maps to INVALID_PARAMS, everything else becomes INTERNAL_ERROR. -/
inductive PyErr where
  | valueError (msg : String)
  | otherError (tyName msg : String)

/-! ## Capability entities (`domain/entities/*.py`) -/

/-- Source `ToolResult` (tool.py): a list of content dicts plus an error flag. -/
structure ToolResult where
  content : List JVal
  is_error : Bool := false

/-- Source `ToolResult.text`: a single `{"type": "text", "text": t}` content item. -/
def ToolResult.text (t : String) (is_error : Bool := false) : ToolResult :=
  { content := [JVal.obj [("type", JVal.str "text"), ("text", JVal.str t)]],
    is_error := is_error }

/-- Source `ToolResult.error`: a textual result with the error flag set. -/
def ToolResult.error (message : String) : ToolResult :=
  ToolResult.text message true

/-- Source `ToolResult.to_dict`: `{"content": ...}` plus `"isError": true` only
when the flag is set (isError is omitted when false). -/
def ToolResult.toDict (r : ToolResult) : JVal :=
  JVal.obj (("content", JVal.arr r.content) ::
    (if r.is_error then [("isError", JVal.bool true)] else []))

/-- Source `ToolInputSchema` (tool.py). -/
structure ToolInputSchema where
  type : String := "object"
  properties : List (String × JVal) := []
  required : List String := []
  additional_properties : Bool := false

/-- Source `ToolInputSchema.to_dict`: `required` only when non-empty,
`additionalProperties: false` only when not allowed. -/
def ToolInputSchema.toDict (s : ToolInputSchema) : JVal :=
  JVal.obj ([("type", JVal.str s.type),
             ("properties", JVal.obj s.properties)] ++
    (if !s.required.isEmpty then
      [("required", JVal.arr (s.required.map JVal.str))] else []) ++
    (if !s.additional_properties then
      [("additionalProperties", JVal.bool false)] else []))

/-- Observable outcome of awaiting a registered tool handler under
`asyncio.wait_for`: a returned `ToolResult`, a raised exception, or a
computation that outlives the timeout (`hang`). -/
inductive HandlerOutcome where
  | ok (r : ToolResult)
  | raised (tyName msg : String)
  | hang

/-- Source `Tool` (tool.py). The name is the validated `ToolName` string; the
handler is the stored async callable, modelled by its outcome function. -/
structure Tool where
  name : String
  description : String
  input_schema : ToolInputSchema
  handler : Option (JVal → HandlerOutcome) := none
  category : String := "general"
  tags : List String := []
  enabled : Bool := true
  timeout_seconds : Nat := 30
  created_at : Nat := 0

/-- Source `Tool.execute`: no handler or disabled tool produce textual error
results; otherwise the handler runs (its outcome is returned to the
`asyncio.wait_for` wrapper in the invocation pipeline). -/
def Tool.execute (t : Tool) (input_data : JVal) : HandlerOutcome :=
  match t.handler with
  | none =>
      HandlerOutcome.ok (ToolResult.error
        ("Tool \x27" ++ t.name ++ "\x27 has no handler"))
  | some h =>
      if !t.enabled then
        HandlerOutcome.ok (ToolResult.error
          ("Tool \x27" ++ t.name ++ "\x27 is disabled"))
      else h input_data

/-- Source `Tool.to_mcp_format`: `{name, description, inputSchema}`. -/
def Tool.toMcpFormat (t : Tool) : JVal :=
  JVal.obj [("name", JVal.str t.name),
            ("description", JVal.str t.description),
            ("inputSchema", t.input_schema.toDict)]

/-- Source `ResourceContent` (resource.py). The `blob` branch of `to_dict`
(base64 of raw bytes) is not exercised by any claim and the blob is kept
already-encoded. -/
structure ResourceContent where
  uri : String
  mime_type : String
  text : Option String := none
  blob64 : Option String := none

/-- Source `ResourceContent.to_dict`. -/
def ResourceContent.toDict (c : ResourceContent) : JVal :=
  JVal.obj ([("uri", JVal.str c.uri), ("mimeType", JVal.str c.mime_type)] ++
    (match c.text with | some t => [("text", JVal.str t)] | none => []) ++
    (match c.blob64 with | some b => [("blob", JVal.str b)] | none => []))

/-- Source `Resource` (resource.py). `uri` is the `ResourceURI` string; the
reader is the stored async callable `(uri, params) -> ResourceContent`,
modelled by its outcome. MIME types are kept as their wire strings. -/
structure Resource where
  uri : String
  name : String
  description : String := ""
  mime_type : String := "text/plain"
  reader : Option (String → JVal → Except PyErr ResourceContent) := none
  is_template : Bool := false
  uri_template : Option String := none
  created_at : Nat := 0

/-- The literal portion of a template URI before the first brace:
`str(self.uri).split("{")[0]`. -/
def templateHead (u : String) : String :=
  (u.splitOn "\x7b").headD u

/-- Source `Resource.matches_uri`: exact equality for plain resources, literal
prefix comparison for templates. -/
def Resource.matchesUri (r : Resource) (uri : String) : Bool :=
  if !r.is_template then r.uri == uri
  else uri.startsWith (templateHead r.uri)

/-- Source `Resource.read`: without a reader a placeholder text content is
produced; with one, the reader runs on `(str(self.uri), params or {})`. -/
def Resource.read (r : Resource) (params : JVal) : Except PyErr ResourceContent :=
  match r.reader with
  | none =>
      Except.ok { uri := r.uri, mime_type := r.mime_type,
                  text := some ("No reader configured for resource: " ++ r.uri) }
  | some rd => rd r.uri (if jvalTruthy params then params else JVal.obj [])

/-- Source `Resource.to_mcp_format`: description only when non-empty. -/
def Resource.toMcpFormat (r : Resource) : JVal :=
  JVal.obj ([("uri", JVal.str r.uri), ("name", JVal.str r.name),
             ("mimeType", JVal.str r.mime_type)] ++
    (if r.description != "" then [("description", JVal.str r.description)] else []))

/-- Source `Resource.to_template_format`: `none` unless the resource is a
template with a stored `uri_template`. -/
def Resource.toTemplateFormat (r : Resource) : Option JVal :=
  if !r.is_template then none
  else match r.uri_template with
    | none => none
    | some tpl =>
        some (JVal.obj ([("uriTemplate", JVal.str tpl), ("name", JVal.str r.name),
                         ("mimeType", JVal.str r.mime_type)] ++
          (if r.description != "" then [("description", JVal.str r.description)] else [])))

/-- Source `PromptArgument` (prompt.py). -/
structure PromptArgument where
  name : String
  description : String := ""
  required : Bool := false

/-- Source `PromptArgument.to_dict`. -/
def PromptArgument.toDict (a : PromptArgument) : JVal :=
  JVal.obj ([("name", JVal.str a.name)] ++
    (if a.description != "" then [("description", JVal.str a.description)] else []) ++
    (if a.required then [("required", JVal.bool true)] else []))

/-- Source `PromptMessage` (prompt.py); the role enum is kept as its wire string. -/
structure PromptMessage where
  role : String
  content : String

/-- Source `PromptMessage.to_dict`. -/
def PromptMessage.toDict (m : PromptMessage) : JVal :=
  JVal.obj [("role", JVal.str m.role),
            ("content", JVal.obj [("type", JVal.str "text"),
                                  ("text", JVal.str m.content)])]

/-- Source `Prompt` (prompt.py); the generator is the stored async callable. -/
structure Prompt where
  name : String
  description : String := ""
  arguments : List PromptArgument := []
  generator : Option (JVal → Except PyErr (List PromptMessage)) := none
  created_at : Nat := 0

/-- Membership test `k in v` as Python evaluates it on a request value:
key membership on a dict, substring membership on a string, element
membership on a list, and a `TypeError` on non-containers. -/
def jvalHasKey (v : JVal) (k : String) : Except PyErr Bool :=
  match v with
  | JVal.obj kvs => Except.ok (kvs.lookup k).isSome
  | JVal.str s => Except.ok (strContainsSub s k)
  | JVal.arr xs => Except.ok (xs.any (fun x => jvalEqStr x k))
  | other => Except.error (PyErr.otherError "TypeError" (pyNotIterableMsg other))

/-- The validation loop of `get_messages`: in declaration order, each
required argument must be a member of the supplied map, else a
`ValueError`; the membership test itself (evaluated only for required
arguments, by Python's `and` short-circuit) may raise on a non-container
argument value. -/
def Prompt.checkRequired (args : JVal) : List PromptArgument → Except PyErr Unit
  | [] => Except.ok ()
  | a :: rest =>
      if a.required then
        match jvalHasKey args a.name with
        | Except.error e => Except.error e
        | Except.ok true => Prompt.checkRequired args rest
        | Except.ok false =>
            Except.error (PyErr.valueError ("Missing required argument: " ++ a.name))
      else Prompt.checkRequired args rest

/-- Source `Prompt.get_messages`: required arguments must be present in the
supplied map, else a `ValueError`; without a generator the message list
is empty. -/
def Prompt.getMessages (p : Prompt) (args : JVal) : Except PyErr (List PromptMessage) :=
  match Prompt.checkRequired args p.arguments with
  | Except.error e => Except.error e
  | Except.ok _ =>
      match p.generator with
      | none => Except.ok []
      | some g => g args

/-- Source `Prompt.to_mcp_format`: description and arguments only when non-empty. -/
def Prompt.toMcpFormat (p : Prompt) : JVal :=
  JVal.obj ([("name", JVal.str p.name)] ++
    (if p.description != "" then [("description", JVal.str p.description)] else []) ++
    (if !p.arguments.isEmpty then
      [("arguments", JVal.arr (p.arguments.map PromptArgument.toDict))] else []))

/-! ## Value objects (`domain/valueobjects/mcp.py`) -/

/-- Source `MCPLogLevel` (RFC 5424 vocabulary). -/
inductive MCPLogLevel where
  | debug | info | notice | warning | error | critical | alert | emergency
  deriving DecidableEq

/-- Wire value of a log level. -/
def MCPLogLevel.value : MCPLogLevel → String
  | .debug => "debug"
  | .info => "info"
  | .notice => "notice"
  | .warning => "warning"
  | .error => "error"
  | .critical => "critical"
  | .alert => "alert"
  | .emergency => "emergency"

/-- Source `MCPLogLevel.from_string`: lower-cases then matches, defaulting to
`info` on an unrecognized string. -/
def MCPLogLevel.fromString (level : String) : MCPLogLevel :=
  let l := level.toLower
  if l == "debug" then .debug
  else if l == "info" then .info
  else if l == "notice" then .notice
  else if l == "warning" then .warning
  else if l == "error" then .error
  else if l == "critical" then .critical
  else if l == "alert" then .alert
  else if l == "emergency" then .emergency
  else .info

/-- Source `MCPErrorCode` values used by the engine (mcp.py). -/
def parseErrorCode : Int := -32700
def invalidRequestCode : Int := -32600
def methodNotFoundCode : Int := -32601
def invalidParamsCode : Int := -32602
def internalErrorCode : Int := -32603

/-- Source `MCPProtocolVersion` (mcp.py): a non-empty version string. -/
structure MCPProtocolVersion where
  value : String

/-- Source `MCPProtocolVersion.LATEST_VERSION`. -/
def latestVersionString : String := "2024-11-05"

/-- Source `MCPProtocolVersion.latest()`. -/
def MCPProtocolVersion.latest : MCPProtocolVersion :=
  { value := latestVersionString }

/-! ## Domain events (`domain/events/events.py`)

Event identity (`event_id`, `occurred_at`) is generated from randomness
and the clock and plays no role in any claim; the payload fields carried
by each event class are modelled. Fields that Python fills from
unconverted request data are `JVal`. -/

inductive DomainEvent where
  | sessionCreated (sessionId : String)
  | sessionInitialized (sessionId : String) (clientName clientVersion : JVal)
  | sessionClosed (sessionId : String)
  | toolRegistered (sessionId : String) (toolName : String) (category : String)
  | toolExecuted (sessionId : String) (toolName : JVal) (success : Bool)
      (durationMs : Nat) (errorMessage : Option String)

/-! ## Session aggregate (`domain/aggregates/session.py`)

The registries are Python `dict`s keyed by the entity's own identity
(`str(tool.name)`, `str(resource.uri)`, `prompt.name`); they are modelled
as insertion-ordered lists of entities, with upsert replacing in place as
a `dict` assignment does. All registry methods hold the session lock; the
single-threaded embedding makes the lock implicit. -/

/-- Source `SessionState` lifecycle states. -/
inductive SessionState where
  | created | initializing | ready | closing | closed
  deriving DecidableEq

/-- Wire value of a session state. -/
def SessionState.value : SessionState → String
  | .created => "created"
  | .initializing => "initializing"
  | .ready => "ready"
  | .closing => "closing"
  | .closed => "closed"

/-- Source `ClientInfo` (session.py). `_handle_initialize` fills the fields from
`clientInfo.get(...)` without conversion, so they are raw values. -/
structure ClientInfo where
  name : JVal
  version : JVal

/-- Source `ServerInfo` (session.py). -/
structure ServerInfo where
  name : String
  version : String

/-- Source `ServerInfo.to_dict`. -/
def ServerInfo.toDict (si : ServerInfo) : JVal :=
  JVal.obj [("name", JVal.str si.name), ("version", JVal.str si.version)]

/-- Source `SessionCapabilities` (session.py). -/
structure SessionCapabilities where
  tools : Bool := true
  resources : Bool := true
  prompts : Bool := true
  logging : Bool := true
  sampling : Bool := false
  experimental : List (String × JVal) := []

/-- Source `SessionCapabilities.to_dict`: MCP capabilities format with a key per
enabled capability. -/
def SessionCapabilities.toDict (c : SessionCapabilities) : JVal :=
  JVal.obj (
    (if c.tools then [("tools", JVal.obj [])] else []) ++
    (if c.resources then
      [("resources", JVal.obj [("subscribe", JVal.bool true),
                               ("listChanged", JVal.bool true)])] else []) ++
    (if c.prompts then [("prompts", JVal.obj [("listChanged", JVal.bool true)])] else []) ++
    (if c.logging then [("logging", JVal.obj [])] else []) ++
    (if c.sampling then [("sampling", JVal.obj [])] else []) ++
    (if !c.experimental.isEmpty then [("experimental", JVal.obj c.experimental)] else []))

/-- Source `Session` aggregate root. -/
structure Session where
  id : String
  protocol_version : MCPProtocolVersion
  state : SessionState := SessionState.created
  client_info : Option ClientInfo := none
  server_info : Option ServerInfo := none
  capabilities : SessionCapabilities := {}
  log_level : MCPLogLevel := MCPLogLevel.info
  tools : List Tool := []
  resources : List Resource := []
  prompts : List Prompt := []
  created_at : Nat := 0
  initialized_at : Option Nat := none
  closed_at : Option Nat := none
  events : List DomainEvent := []

/-- Source `Session._add_event`. -/
def Session.addEvent (s : Session) (e : DomainEvent) : Session :=
  { s with events := s.events ++ [e] }

/-- Source `Session.create`: a fresh CREATED session carrying one
`SessionCreated` event; the generated id and the clock reading are
explicit parameters. -/
def Session.create (sid : String) (now : Nat) (serverName serverVersion : String)
    (capabilities : SessionCapabilities) : Session :=
  Session.addEvent
    { id := sid, protocol_version := MCPProtocolVersion.latest,
      server_info := some { name := serverName, version := serverVersion },
      capabilities := capabilities, created_at := now }
    (DomainEvent.sessionCreated sid)

/-- Source `Session.get_events`: drain-and-clear. -/
def Session.getEvents (s : Session) : List DomainEvent × Session :=
  (s.events, { s with events := [] })

/-- Source `Session._build_initialize_response`. -/
def Session.buildInitializeResponse (s : Session) : JVal :=
  JVal.obj [("protocolVersion", JVal.str s.protocol_version.value),
            ("capabilities", s.capabilities.toDict),
            ("serverInfo", match s.server_info with
              | some si => si.toDict
              | none => JVal.obj [])]

/-- Source `Session.initializeClient`: only allowed from CREATED or INITIALIZING;
passes through INITIALIZING to READY under the lock, stamps
`initialized_at`, emits `SessionInitialized`, and returns the initialize
response. The `client_capabilities` argument is accepted and ignored
(reserved for future use in the source). -/
def Session.initializeClient (s : Session) (now : Nat) (client_info : ClientInfo)
    (_client_capabilities : JVal) : Except PyErr JVal × Session :=
  if s.state == SessionState.created || s.state == SessionState.initializing then
    let s' := Session.addEvent
      { s with state := SessionState.ready, client_info := some client_info,
               initialized_at := some now }
      (DomainEvent.sessionInitialized s.id client_info.name client_info.version)
    (Except.ok s'.buildInitializeResponse, s')
  else
    (Except.error (PyErr.valueError
      ("Cannot initialize session in state: " ++ s.state.value)), s)

/-- Source `Session.close`: no-op when already CLOSED; otherwise passes through
CLOSING to CLOSED, stamps `closed_at`, emits `SessionClosed`. -/
def Session.close (s : Session) (now : Nat) : Session :=
  if s.state == SessionState.closed then s
  else
    Session.addEvent
      { s with state := SessionState.closed, closed_at := some now }
      (DomainEvent.sessionClosed s.id)

/-- Source `Session.set_log_level`. -/
def Session.setLogLevel (s : Session) (level : MCPLogLevel) : Session :=
  { s with log_level := level }

/-- Upsert into a keyed registry list: a `dict` assignment replaces the
existing binding in place, else appends. -/
def registryUpsert {α : Type} (key : α → String) (x : α) : List α → List α
  | [] => [x]
  | y :: ys => if key y == key x then x :: ys else y :: registryUpsert key x ys

/-- Source `Session.register_tool`: upsert by `str(tool.name)`. -/
def Session.registerTool (s : Session) (t : Tool) : Session :=
  { s with tools := registryUpsert Tool.name t s.tools }

/-- Source `Session.unregister_tool`: removes the binding, reporting whether one
existed. -/
def Session.unregisterTool (s : Session) (name : String) : Bool × Session :=
  if s.tools.any (fun t => t.name == name) then
    (true, { s with tools := s.tools.filter (fun t => t.name != name) })
  else (false, s)

/-- Source `Session.get_tool`: exact-key `dict.get`. -/
def Session.getTool (s : Session) (name : String) : Option Tool :=
  s.tools.find? (fun t => t.name == name)

/-- Source `self.tools.get(v)` for an unconverted request value: an
unhashable key (list/dict) raises `TypeError` at the `dict` lookup; any
other non-string key is hashable but never equals a string `dict` key. -/
def Session.getToolJ (s : Session) (v : JVal) : Except PyErr (Option Tool) :=
  match v with
  | JVal.str name => Except.ok (s.getTool name)
  | JVal.arr _ => Except.error (PyErr.otherError "TypeError" (pyUnhashableMsg v))
  | JVal.obj _ => Except.error (PyErr.otherError "TypeError" (pyUnhashableMsg v))
  | _ => Except.ok none

/-- Source `Session.list_tools`: a snapshot of the registry's values. -/
def Session.listTools (s : Session) : List Tool := s.tools

/-- Source `Session.register_resource`: upsert by `str(resource.uri)`. -/
def Session.registerResource (s : Session) (r : Resource) : Session :=
  { s with resources := registryUpsert Resource.uri r s.resources }

/-- Source `Session.get_resource`: direct `dict` match on the URI first, then
the first registered resource whose `matches_uri` accepts it. -/
def Session.getResource (s : Session) (uri : String) : Option Resource :=
  match s.resources.find? (fun r => r.uri == uri) with
  | some r => some r
  | none => s.resources.find? (fun r => r.matchesUri uri)

/-- Source `get_resource` on an unconverted request value: an unhashable
key (list/dict) raises `TypeError` at the `uri in self.resources`
membership test; any other non-string key has no direct `dict` match,
and the template loop then raises `AttributeError` at the first
template's `uri.startswith` (plain resources compare unequal without
raising). -/
def Session.getResourceJ (s : Session) (v : JVal) : Except PyErr (Option Resource) :=
  match v with
  | JVal.str uri => Except.ok (s.getResource uri)
  | JVal.arr _ => Except.error (PyErr.otherError "TypeError" (pyUnhashableMsg v))
  | JVal.obj _ => Except.error (PyErr.otherError "TypeError" (pyUnhashableMsg v))
  | other =>
      if (s.resources.find? (fun r => r.is_template)).isSome then
        Except.error (PyErr.otherError "AttributeError" (pyNoAttrMsg other "startswith"))
      else Except.ok none

/-- Source `Session.list_resources`. -/
def Session.listResources (s : Session) : List Resource := s.resources

/-- Source `Session.register_prompt`: upsert by `prompt.name`. -/
def Session.registerPrompt (s : Session) (p : Prompt) : Session :=
  { s with prompts := registryUpsert Prompt.name p s.prompts }

/-- Source `Session.get_prompt`: exact-key `dict.get`. -/
def Session.getPrompt (s : Session) (name : String) : Option Prompt :=
  s.prompts.find? (fun p => p.name == name)

/-- Source `self.prompts.get(v)` for an unconverted request value. -/
def Session.getPromptJ (s : Session) (v : JVal) : Option Prompt :=
  match v with
  | JVal.str name => s.getPrompt name
  | _ => none

/-- Source `Session.list_prompts`. -/
def Session.listPrompts (s : Session) : List Prompt := s.prompts

/-- Source `Session.is_ready`. -/
def Session.isReady (s : Session) : Bool := s.state == SessionState.ready

/-- Source `Session.is_closed`. -/
def Session.isClosed (s : Session) : Bool := s.state == SessionState.closed

/-! ## Telemetry wrapper (`infrastructure/telemetry/client.py`)

`MCPTelemetryClient` wraps the SDK client; every metric/log call guards
on `is_enabled` and catches every exception from the underlying SDK,
logging and returning normally. The underlying SDK calls are modelled as
stored functions that may fail; the wrapper's `except Exception` blocks
are what make each public method infallible. The span context manager
likewise catches everything (it yields `None` on failure), so it is
modelled as control-flow-neutral. -/

/-- Source `MCPTelemetryClient`: `isEnabled` models
`self._enabled and self._initialized`; the `inner*` fields are the raw
SDK entry points, each of which may raise. -/
structure MCPTelemetryClient where
  isEnabled : Bool
  innerCounter : String → Int → List (String × JVal) → Except String Unit
  innerHistogram : String → Nat → String → List (String × JVal) → Except String Unit

/-- Source `increment_counter`: prefix with `mcp.`, delegate, catch everything. -/
def MCPTelemetryClient.incrementCounter (t : MCPTelemetryClient)
    (name : String) (value : Int) (attributes : List (String × JVal)) :
    Except PyErr Unit :=
  if !t.isEnabled then Except.ok ()
  else
    match t.innerCounter ("mcp." ++ name) value attributes with
    | Except.ok _ => Except.ok ()
    | Except.error _ => Except.ok ()

/-- Source `record_histogram`: prefix with `mcp.`, delegate, catch everything. -/
def MCPTelemetryClient.recordHistogram (t : MCPTelemetryClient)
    (name : String) (value : Nat) (unit : String)
    (attributes : List (String × JVal)) : Except PyErr Unit :=
  if !t.isEnabled then Except.ok ()
  else
    match t.innerHistogram ("mcp." ++ name) value unit attributes with
    | Except.ok _ => Except.ok ()
    | Except.error _ => Except.ok ()

/-- Source `record_tool_call`: a calls counter, a duration histogram, and an
errors counter on failure. -/
def MCPTelemetryClient.recordToolCall (t : MCPTelemetryClient)
    (toolName : JVal) (durationSeconds : Nat) (success : Bool)
    (errorType : Option String) : Except PyErr Unit := do
  let attributes := [("tool.name", toolName),
                     ("success", JVal.str (if success then "true" else "false"))] ++
    (match errorType with
     | some et => [("error.type", JVal.str et)]
     | none => [])
  _ ← t.incrementCounter "tools.calls" 1 attributes
  _ ← t.recordHistogram "tools.duration" durationSeconds "s" [("tool.name", toolName)]
  if !success then t.incrementCounter "tools.errors" 1 attributes
  else Except.ok ()

/-- Source `record_resource_read`: a reads counter and a duration histogram. -/
def MCPTelemetryClient.recordResourceRead (t : MCPTelemetryClient)
    (resourceUri : JVal) (durationSeconds : Nat) (success : Bool) :
    Except PyErr Unit := do
  let attributes := [("resource.uri", resourceUri),
                     ("success", JVal.str (if success then "true" else "false"))]
  _ ← t.incrementCounter "resources.reads" 1 attributes
  t.recordHistogram "resources.read_duration" durationSeconds "s"
    [("resource.uri", resourceUri)]

/-- Source `record_prompt_get`: a gets counter and a duration histogram. -/
def MCPTelemetryClient.recordPromptGet (t : MCPTelemetryClient)
    (promptName : JVal) (durationSeconds : Nat) (success : Bool) :
    Except PyErr Unit := do
  let attributes := [("prompt.name", promptName),
                     ("success", JVal.str (if success then "true" else "false"))]
  _ ← t.incrementCounter "prompts.gets" 1 attributes
  t.recordHistogram "prompts.get_duration" durationSeconds "s"
    [("prompt.name", promptName)]

/-! ## Tool invocation pipeline (`application/handlers/tool_handler.py`) -/

/-- Source `ExecuteToolCommand` (application/commands). The fields carry the
request values unconverted. -/
structure ExecuteToolCommand where
  tool_name : JVal
  arguments : JVal

/-- The `try` body of `ToolHandler.handle_execute`: resolves the tool,
rejects missing/disabled tools with textual error results, runs the
handler under `asyncio.wait_for`, and converts `TimeoutError` and any
other exception into textual error results — so the body always yields a
`ToolResult` together with the `success`/`error_message`/`error_type`
bookkeeping for emission. -/
def ToolHandler.handleExecuteTry (sess : Session) (command : ExecuteToolCommand) :
    ToolResult × Bool × Option String × Option String :=
  match sess.getToolJ command.tool_name with
    | Except.error (PyErr.valueError m) =>
        -- an exception escaping the lookup lands in the generic except arm
        (ToolResult.error ("Tool execution failed: " ++ m),
         false, some m, some "ValueError")
    | Except.error (PyErr.otherError ty m) =>
        (ToolResult.error ("Tool execution failed: " ++ m),
         false, some m, some ty)
    | Except.ok none =>
        let m := "Tool not found: " ++ pyStr command.tool_name
        (ToolResult.error m, false, some m, some "NotFoundError")
    | Except.ok (some tool) =>
        if !tool.enabled then
          let m := "Tool is disabled: " ++ pyStr command.tool_name
          (ToolResult.error m, false, some m, some "DisabledError")
        else
          match tool.execute command.arguments with
          | HandlerOutcome.hang =>
              let m := "Tool execution timed out after " ++
                pyFloatStr tool.timeout_seconds ++ "s"
              (ToolResult.error m, false, some m, some "TimeoutError")
          | HandlerOutcome.raised ty msg =>
              if ty == "TimeoutError" then
                -- on Python 3.11+ asyncio.TimeoutError IS builtins.TimeoutError,
                -- so a handler-raised TimeoutError is caught by the
                -- except TimeoutError arm, not the generic one
                let m := "Tool execution timed out after " ++
                  pyFloatStr tool.timeout_seconds ++ "s"
                (ToolResult.error m, false, some m, some "TimeoutError")
              else
                (ToolResult.error ("Tool execution failed: " ++ msg),
                 false, some msg, some ty)
          | HandlerOutcome.ok r =>
              if r.is_error then
                match r.content with
                | [] =>
                    -- `result.content[0]` raises IndexError, caught below
                    (ToolResult.error "Tool execution failed: list index out of range",
                     false, some "list index out of range", some "IndexError")
                | c :: _ =>
                    match c with
                    | JVal.obj kvs =>
                        (r, false,
                         some (pyStr (pyGetD kvs "text" (JVal.str "Unknown error"))),
                         some "ExecutionError")
                    | other =>
                        -- `content[0].get` raises AttributeError, caught below
                        let m := pyNoAttrMsg other "get"
                        (ToolResult.error ("Tool execution failed: " ++ m),
                         false, some m, some "AttributeError")
              else (r, true, none, none)

/-- Source `ToolHandler.handle_execute`: the `try` body above followed by the
`finally` block, which exits the span (under `contextlib.suppress`),
records the tool-call metric, and appends a `ToolExecuted` domain event.
Per Python semantics an exception raised in `finally` would replace the
returned result, so the emission is threaded through `Except` and a
failure there discards the result (and skips the event append that
follows the metric call); the telemetry client's own catch blocks are
what prevent this. `durS` is the measured wall-clock duration of the
body (`time.monotonic` difference); the event carries it in ms. -/
def ToolHandler.handleExecute (telemetry : Option MCPTelemetryClient)
    (durS : Nat) (sess : Session) (command : ExecuteToolCommand) :
    Except PyErr ToolResult × Session :=
  match ToolHandler.handleExecuteTry sess command with
  | (result, success, errorMessage, errorType) =>
      let durationMs := durS * 1000
      let emit : Except PyErr Unit :=
        match telemetry with
        | some t => t.recordToolCall command.tool_name durS success errorType
        | none => Except.ok ()
      match emit with
      | Except.error e => (Except.error e, sess)
      | Except.ok _ =>
          (Except.ok result,
           sess.addEvent (DomainEvent.toolExecuted sess.id command.tool_name
             success durationMs errorMessage))

/-! ## Configuration (`infrastructure/config/config.py`)

Only the fields the protocol engine reads. -/

/-- Source `ServerConfig` fields used by the engine. -/
structure ServerConfig where
  name : String := "TelemetryFlow-MCP"
  version : String := "1.1.2"
  transport : String := "stdio"

/-- Source `MCPConfig` fields used by the engine. -/
structure MCPConfig where
  protocol_version : String := "2024-11-05"
  enable_tools : Bool := true
  enable_resources : Bool := true
  enable_prompts : Bool := true
  enable_logging : Bool := true
  enable_sampling : Bool := false

/-- Source `Config` as seen by the engine. -/
structure Config where
  server : ServerConfig := {}
  mcp : MCPConfig := {}

/-! ## Protocol engine (`presentation/server/server.py`) -/

/-- Source `MCPServer.MAX_MESSAGE_SIZE` (10 MiB). -/
def MAX_MESSAGE_SIZE : Nat := 10 * 1024 * 1024

/-- A JSON-RPC error object as built by `_make_error`; `data` is included
only when not `None` (no engine call site passes one). -/
structure JsonRpcError where
  code : Int
  message : String
  data : Option JVal := none

/-- The exclusive `result`/`error` alternative of a response:
`_make_response` writes an `error` member when given a (non-empty) error
dict and a `result` member otherwise, never both. -/
inductive RespPayload where
  | result (v : JVal)
  | err (e : JsonRpcError)

/-- A serialized JSON-RPC response: the `jsonrpc` member is always
`"2.0"`; the `id` member is present (`some`) or absent (`none`). -/
structure Response where
  id : Option JVal
  payload : RespPayload

/-- Source `_make_error`. -/
def makeError (code : Int) (message : String) : JsonRpcError :=
  { code := code, message := message }

/-- Source `_make_response`: the `id` member is added only when the request id
is not `None`; given an error dict the `error` member is written,
otherwise `result` (defaulting to `{}` when the handler returned
`None`). -/
def makeResponse (requestId : JVal) (result : Option JVal)
    (error : Option JsonRpcError) : Response :=
  { id := if jvalIsNull requestId then none else some requestId,
    payload :=
      match error with
      | some e => RespPayload.err e
      | none => RespPayload.result (result.getD (JVal.obj [])) }

/-- Source `MCPServer` state: configuration, the current session, whether
`self._tool_handler` has been installed (it wraps the same session and
is set only at the end of a successful `_handle_initialize`, so a
session can exist without it when initialization raised mid-handler),
and the run flag. -/
structure Server where
  config : Config
  session : Option Session := none
  toolHandler : Bool := false
  running : Bool := false

/-- Ambient inputs of one dispatch: the global telemetry client
(`get_telemetry_client()`), a fresh session id, the wall clock, and the
measured duration of the handled call. -/
structure Ctx where
  telemetry : Option MCPTelemetryClient := none
  freshSid : String := "sid"
  now : Nat := 0
  durS : Nat := 0

/-- Source `_handle_initialize`: refuses when a session already exists, builds
the capability flags from config, creates and initializes the session
(the client's `protocolVersion` is read only for logging), and returns
the session's initialize response. The session is assigned to the server
before `ClientInfo` is built from `client_info.get(...)`, so a non-dict
`clientInfo` raises after the assignment. -/
def handleInitializeRequest (ctx : Ctx) (srv : Server) (params : JVal) :
    Except PyErr JVal × Server :=
  if srv.session.isSome then
    (Except.error (PyErr.valueError "Session already initialized"), srv)
  else
    match params with
    | JVal.obj kvs =>
        let _protocolVersion := pyGetD kvs "protocolVersion" (JVal.str "2024-11-05")
        let clientInfoV := pyGetD kvs "clientInfo" (JVal.obj [])
        let clientCapabilities := pyGetD kvs "capabilities" (JVal.obj [])
        let capabilities : SessionCapabilities :=
          { tools := srv.config.mcp.enable_tools,
            resources := srv.config.mcp.enable_resources,
            prompts := srv.config.mcp.enable_prompts,
            logging := srv.config.mcp.enable_logging,
            sampling := srv.config.mcp.enable_sampling }
        let sess0 := Session.create ctx.freshSid ctx.now
          srv.config.server.name srv.config.server.version capabilities
        let srv1 := { srv with session := some sess0 }
        match clientInfoV with
        | JVal.obj ckvs =>
            let client : ClientInfo :=
              { name := pyGetD ckvs "name" (JVal.str "unknown"),
                version := pyGetD ckvs "version" (JVal.str "unknown") }
            match sess0.initializeClient ctx.now client clientCapabilities with
            | (Except.ok result, sess1) =>
                (Except.ok result,
                 { srv1 with session := some sess1, toolHandler := true })
            | (Except.error e, sess1) =>
                (Except.error e, { srv1 with session := some sess1 })
        | other =>
            (Except.error (PyErr.otherError "AttributeError"
              (pyNoAttrMsg other "get")), srv1)
    | other =>
        (Except.error (PyErr.otherError "AttributeError"
          (pyNoAttrMsg other "get")), srv)

/-- Source `_handle_ping`. -/
def handlePing (srv : Server) : Except PyErr JVal × Server :=
  (Except.ok (JVal.obj []), srv)

/-- Source `_handle_tools_list`. -/
def handleToolsList (srv : Server) : Except PyErr JVal × Server :=
  match srv.session with
  | none => (Except.error (PyErr.valueError "Session not initialized"), srv)
  | some sess =>
      (Except.ok (JVal.obj [("tools",
        JVal.arr (sess.listTools.map Tool.toMcpFormat))]), srv)

/-- Source `_handle_tools_call`: requires both the session and the installed
tool handler (`if not self._session or not self._tool_handler`) plus a
truthy `name` param, then delegates to the invocation pipeline and
serializes its `ToolResult` with `to_dict` — "not found"/"disabled"/
failed executions come back through here as ordinary results. -/
def handleToolsCall (ctx : Ctx) (srv : Server) (params : JVal) :
    Except PyErr JVal × Server :=
  match srv.session with
  | none => (Except.error (PyErr.valueError "Session not initialized"), srv)
  | some sess =>
      if !srv.toolHandler then
        (Except.error (PyErr.valueError "Session not initialized"), srv)
      else
      match params with
      | JVal.obj kvs =>
          let toolName := pyGet kvs "name"
          let arguments := pyGetD kvs "arguments" (JVal.obj [])
          if !jvalTruthy toolName then
            (Except.error (PyErr.valueError "Tool name is required"), srv)
          else
            match ToolHandler.handleExecute ctx.telemetry ctx.durS sess
              { tool_name := toolName, arguments := arguments } with
            | (Except.ok r, sess') =>
                (Except.ok r.toDict, { srv with session := some sess' })
            | (Except.error e, sess') =>
                (Except.error e, { srv with session := some sess' })
      | other =>
          (Except.error (PyErr.otherError "AttributeError"
            (pyNoAttrMsg other "get")), srv)

/-- Source `_handle_resources_list`: non-template resources only. -/
def handleResourcesList (srv : Server) : Except PyErr JVal × Server :=
  match srv.session with
  | none => (Except.error (PyErr.valueError "Session not initialized"), srv)
  | some sess =>
      (Except.ok (JVal.obj [("resources",
        JVal.arr ((sess.listResources.filter (fun r => !r.is_template)).map
          Resource.toMcpFormat))]), srv)

/-- Source `_handle_resources_templates_list`: template formats, dropping the
`None`s `to_template_format` returns for non-templates. -/
def handleResourcesTemplatesList (srv : Server) : Except PyErr JVal × Server :=
  match srv.session with
  | none => (Except.error (PyErr.valueError "Session not initialized"), srv)
  | some sess =>
      (Except.ok (JVal.obj [("resourceTemplates",
        JVal.arr (sess.listResources.filterMap Resource.toTemplateFormat))]), srv)

/-- Source `_handle_resources_read`: requires a session and a truthy `uri`;
looks the resource up (exact, then template prefix) and raises a
`ValueError` when absent; reads the resource otherwise. The `finally`
block records a read metric (whose internal failures the telemetry
client swallows); per Python semantics an exception escaping `finally`
would replace the outcome. -/
def handleResourcesRead (ctx : Ctx) (srv : Server) (params : JVal) :
    Except PyErr JVal × Server :=
  match srv.session with
  | none => (Except.error (PyErr.valueError "Session not initialized"), srv)
  | some sess =>
      match params with
      | JVal.obj kvs =>
          let uri := pyGet kvs "uri"
          if !jvalTruthy uri then
            (Except.error (PyErr.valueError "Resource URI is required"), srv)
          else
            let body : Except PyErr JVal :=
              match sess.getResourceJ uri with
              | Except.error e => Except.error e
              | Except.ok none =>
                  Except.error (PyErr.valueError
                    ("Resource not found: " ++ pyStr uri))
              | Except.ok (some r) =>
                  match r.read (pyGetD kvs "params" (JVal.obj [])) with
                  | Except.error e => Except.error e
                  | Except.ok content =>
                      Except.ok (JVal.obj [("contents", JVal.arr [content.toDict])])
            let emit : Except PyErr Unit :=
              match ctx.telemetry with
              | some t =>
                  t.recordResourceRead uri ctx.durS
                    (match body with | Except.ok _ => true | Except.error _ => false)
              | none => Except.ok ()
            match emit with
            | Except.error e => (Except.error e, srv)
            | Except.ok _ => (body, srv)
      | other =>
          (Except.error (PyErr.otherError "AttributeError"
            (pyNoAttrMsg other "get")), srv)

/-- Source `_handle_prompts_list`. -/
def handlePromptsList (srv : Server) : Except PyErr JVal × Server :=
  match srv.session with
  | none => (Except.error (PyErr.valueError "Session not initialized"), srv)
  | some sess =>
      (Except.ok (JVal.obj [("prompts",
        JVal.arr (sess.listPrompts.map Prompt.toMcpFormat))]), srv)

/-- Source `_handle_prompts_get`: requires a session and a truthy `name`;
a missing prompt raises a `ValueError`; otherwise the prompt generates
messages from the supplied arguments. A prompt-get metric is recorded in
`finally` as for resource reads. -/
def handlePromptsGet (ctx : Ctx) (srv : Server) (params : JVal) :
    Except PyErr JVal × Server :=
  match srv.session with
  | none => (Except.error (PyErr.valueError "Session not initialized"), srv)
  | some sess =>
      match params with
      | JVal.obj kvs =>
          let name := pyGet kvs "name"
          let arguments := pyGetD kvs "arguments" (JVal.obj [])
          if !jvalTruthy name then
            (Except.error (PyErr.valueError "Prompt name is required"), srv)
          else
            let body : Except PyErr JVal :=
              match sess.getPromptJ name with
              | none =>
                  Except.error (PyErr.valueError
                    ("Prompt not found: " ++ pyStr name))
              | some p =>
                  match p.getMessages arguments with
                  | Except.error e => Except.error e
                  | Except.ok msgs =>
                      Except.ok (JVal.obj [("messages",
                        JVal.arr (msgs.map PromptMessage.toDict))])
            let emit : Except PyErr Unit :=
              match ctx.telemetry with
              | some t =>
                  t.recordPromptGet name ctx.durS
                    (match body with | Except.ok _ => true | Except.error _ => false)
              | none => Except.ok ()
            match emit with
            | Except.error e => (Except.error e, srv)
            | Except.ok _ => (body, srv)
      | other =>
          (Except.error (PyErr.otherError "AttributeError"
            (pyNoAttrMsg other "get")), srv)

/-- Source `_handle_logging_set_level`: requires a session; reads `level`
(default `"info"`), converts with `MCPLogLevel.from_string` (whose
`.lower()` raises on a non-string), stores it. -/
def handleLoggingSetLevel (srv : Server) (params : JVal) :
    Except PyErr JVal × Server :=
  match srv.session with
  | none => (Except.error (PyErr.valueError "Session not initialized"), srv)
  | some sess =>
      match params with
      | JVal.obj kvs =>
          match pyGetD kvs "level" (JVal.str "info") with
          | JVal.str level =>
              (Except.ok (JVal.obj []),
               { srv with session := some (sess.setLogLevel
                   (MCPLogLevel.fromString level)) })
          | other =>
              (Except.error (PyErr.otherError "AttributeError"
                (pyNoAttrMsg other "lower")), srv)
      | other =>
          (Except.error (PyErr.otherError "AttributeError"
            (pyNoAttrMsg other "get")), srv)

/-- What the routing table produced inside `_handle_request`'s `try`:
the `notifications/initialized` branch returns `None` outright
(`silent`), an unrecognized method falls to the not-found arm
(`unknown`), every other branch yields the handler's result value. -/
inductive Dispatched where
  | silent
  | unknown
  | value (v : JVal)

/-- The method routing table of `_handle_request`, with the state each
handler leaves behind (mutations survive a raise, as on the shared
Python objects). `shutdown` clears the run flag and returns `{}`. -/
def dispatchMethod (ctx : Ctx) (srv : Server) (method params : JVal) :
    Except PyErr Dispatched × Server :=
  if jvalEqStr method "initialize" then
    match handleInitializeRequest ctx srv params with
    | (Except.ok v, srv') => (Except.ok (Dispatched.value v), srv')
    | (Except.error e, srv') => (Except.error e, srv')
  else if jvalEqStr method "notifications/initialized" then
    (Except.ok Dispatched.silent, srv)
  else if jvalEqStr method "ping" then
    match handlePing srv with
    | (Except.ok v, srv') => (Except.ok (Dispatched.value v), srv')
    | (Except.error e, srv') => (Except.error e, srv')
  else if jvalEqStr method "tools/list" then
    match handleToolsList srv with
    | (Except.ok v, srv') => (Except.ok (Dispatched.value v), srv')
    | (Except.error e, srv') => (Except.error e, srv')
  else if jvalEqStr method "tools/call" then
    match handleToolsCall ctx srv params with
    | (Except.ok v, srv') => (Except.ok (Dispatched.value v), srv')
    | (Except.error e, srv') => (Except.error e, srv')
  else if jvalEqStr method "resources/list" then
    match handleResourcesList srv with
    | (Except.ok v, srv') => (Except.ok (Dispatched.value v), srv')
    | (Except.error e, srv') => (Except.error e, srv')
  else if jvalEqStr method "resources/templates/list" then
    match handleResourcesTemplatesList srv with
    | (Except.ok v, srv') => (Except.ok (Dispatched.value v), srv')
    | (Except.error e, srv') => (Except.error e, srv')
  else if jvalEqStr method "resources/read" then
    match handleResourcesRead ctx srv params with
    | (Except.ok v, srv') => (Except.ok (Dispatched.value v), srv')
    | (Except.error e, srv') => (Except.error e, srv')
  else if jvalEqStr method "prompts/list" then
    match handlePromptsList srv with
    | (Except.ok v, srv') => (Except.ok (Dispatched.value v), srv')
    | (Except.error e, srv') => (Except.error e, srv')
  else if jvalEqStr method "prompts/get" then
    match handlePromptsGet ctx srv params with
    | (Except.ok v, srv') => (Except.ok (Dispatched.value v), srv')
    | (Except.error e, srv') => (Except.error e, srv')
  else if jvalEqStr method "logging/setLevel" then
    match handleLoggingSetLevel srv params with
    | (Except.ok v, srv') => (Except.ok (Dispatched.value v), srv')
    | (Except.error e, srv') => (Except.error e, srv')
  else if jvalEqStr method "shutdown" then
    (Except.ok (Dispatched.value (JVal.obj [])), { srv with running := false })
  else
    (Except.ok Dispatched.unknown, srv)

/-- Source `_handle_request` over a parsed request dict: extracts `id`,
`method` (default `""`), `params` (default `{}`); the absence (or
nullness) of `id` marks a notification. Routing and the per-method
handlers run inside a `try` whose `except ValueError` arm produces an
INVALID_PARAMS error response and whose `except Exception` arm produces
an INTERNAL_ERROR one — each suppressed for notifications, as are the
success and method-not-found responses. -/
def handleRequest (ctx : Ctx) (srv : Server) (request : List (String × JVal)) :
    Option Response × Server :=
  let requestId := pyGet request "id"
  let method := pyGetD request "method" (JVal.str "")
  let params := pyGetD request "params" (JVal.obj [])
  let isNotification := jvalIsNull requestId
  match dispatchMethod ctx srv method params with
  | (Except.ok Dispatched.silent, srv') => (none, srv')
  | (Except.ok Dispatched.unknown, srv') =>
      if isNotification then (none, srv')
      else
        (some (makeResponse requestId none (some (makeError methodNotFoundCode
          ("Method not found: " ++ pyStr method)))), srv')
  | (Except.ok (Dispatched.value v), srv') =>
      if isNotification then (none, srv')
      else (some (makeResponse requestId (some v) none), srv')
  | (Except.error (PyErr.valueError m), srv') =>
      if isNotification then (none, srv')
      else
        (some (makeResponse requestId none (some (makeError invalidParamsCode m))),
         srv')
  | (Except.error (PyErr.otherError _ m), srv') =>
      if isNotification then (none, srv')
      else
        (some (makeResponse requestId none (some (makeError internalErrorCode m))),
         srv')

/-- One iteration of `MCPServer.run` on a received line, after
`_read_line` stripped it: blank lines are skipped, oversized lines are
dropped silently, a JSON parse failure gets a PARSE_ERROR response built
with a `None` request id, a wrong `jsonrpc` member gets an
INVALID_REQUEST response with the request's `id` echoed when present,
and a well-versioned envelope goes to `_handle_request`. A parsed
non-object makes `request.get` raise, which the loop's outer
`except Exception` swallows without a response. `lineLen` is the length
of the stripped line and `parsed` the outcome of `json.loads` on it. -/
def processLine (ctx : Ctx) (srv : Server) (lineLen : Nat)
    (parsed : Except String JVal) : Option Response × Server :=
  if lineLen == 0 then (none, srv)
  else if MAX_MESSAGE_SIZE < lineLen then (none, srv)
  else
    match parsed with
    | Except.error e =>
        (some (makeResponse JVal.null none (some (makeError parseErrorCode
          ("Parse error: " ++ e)))), srv)
    | Except.ok (JVal.obj kvs) =>
        if !jvalEqStr (pyGet kvs "jsonrpc") "2.0" then
          (some (makeResponse (pyGet kvs "id") none (some (makeError
            invalidRequestCode "Invalid JSON-RPC version"))), srv)
        else handleRequest ctx srv kvs
    | Except.ok _ => (none, srv)

/-- Source `MCPServer.stop`: clears the run flag and closes the current
session, if any. -/
def serverStop (srv : Server) (now : Nat) : Server :=
  { srv with running := false,
             session := srv.session.map (fun s => s.close now) }

/-! ## Concrete fixtures used by witnesses -/

/-- A default configuration (all source defaults). -/
def cfg0 : Config := {}

/-- A freshly created sample session. -/
def sampleSession : Session :=
  Session.create "s1" 0 "TelemetryFlow-MCP" "1.1.2" {}

/-- A tool whose handler raises. -/
def raisingTool : Tool :=
  { name := "boom", description := "a tool that raises",
    input_schema := {},
    handler := some (fun _ => HandlerOutcome.raised "RuntimeError" "kaboom") }

/-- A session holding `raisingTool`. -/
def sessWithRaisingTool : Session := sampleSession.registerTool raisingTool

/-- A tool whose handler raises `TimeoutError("custom")`. -/
def timeoutRaisingTool : Tool :=
  { name := "slowish", description := "a tool that raises TimeoutError",
    input_schema := {},
    handler := some (fun _ => HandlerOutcome.raised "TimeoutError" "custom") }

/-- A session holding `timeoutRaisingTool`. -/
def sessWithTimeoutTool : Session := sampleSession.registerTool timeoutRaisingTool

/-- A server with no session yet. -/
def srv0 : Server := { config := cfg0 }

/-- A server with a current (empty-registry) session and an installed
tool handler, as left by a successful `initialize`. -/
def srvReady : Server :=
  { config := cfg0, session := some sampleSession, toolHandler := true,
    running := true }


/-- A default dispatch context with no telemetry client. -/
def ctx0 : Ctx := {}

/-- The server state after an `initialize` whose `clientInfo` was the
number 5: the handler assigned the session (server.py:105) and then
raised `AttributeError` building `ClientInfo` (server.py:113), so the
session exists but `self._tool_handler` was never installed. -/
def srvAnomalous : Server :=
  (processLine ctx0 srv0 60 (Except.ok (JVal.obj
    [("jsonrpc", JVal.str "2.0"), ("id", JVal.num 1),
     ("method", JVal.str "initialize"),
     ("params", JVal.obj [("clientInfo", JVal.num 5)])]))).2

/-! ## Statement-side definitions -/

/-- Source `get_resource` restated in the words of the specification:
the resource registered under exactly that URI if one exists; else the
first registered resource, in insertion order, that is a template and
whose URI portion before the first brace is a prefix of the URI; else
none — and non-template resources never match by prefix. -/
def getResourceSpec (resources : List Resource) (uri : String) : Option Resource :=
  match resources.find? (fun r => r.uri == uri) with
  | some r => some r
  | none =>
      resources.find? (fun r => r.is_template && uri.startsWith (templateHead r.uri))

/-- Lookup of a member in a JSON object value (for inspecting handler
results in statements). -/
def jvalLookup (v : JVal) (k : String) : Option JVal :=
  match v with
  | JVal.obj kvs => kvs.lookup k
  | _ => none

/-! ## Infallibility of the telemetry wrapper -/

theorem incrementCounter_ok (t : MCPTelemetryClient) (n : String) (v : Int)
    (a : List (String × JVal)) : t.incrementCounter n v a = Except.ok () := by
  unfold MCPTelemetryClient.incrementCounter
  cases t.isEnabled with
  | false => rfl
  | true =>
      simp only [Bool.not_true, Bool.false_eq_true, if_false]
      cases t.innerCounter ("mcp." ++ n) v a <;> rfl

theorem recordHistogram_ok (t : MCPTelemetryClient) (n : String) (v : Nat)
    (u : String) (a : List (String × JVal)) :
    t.recordHistogram n v u a = Except.ok () := by
  unfold MCPTelemetryClient.recordHistogram
  cases t.isEnabled with
  | false => rfl
  | true =>
      simp only [Bool.not_true, Bool.false_eq_true, if_false]
      cases t.innerHistogram ("mcp." ++ n) v u a <;> rfl

theorem recordToolCall_ok (t : MCPTelemetryClient) (n : JVal) (d : Nat)
    (s : Bool) (et : Option String) :
    t.recordToolCall n d s et = Except.ok () := by
  unfold MCPTelemetryClient.recordToolCall
  simp only [incrementCounter_ok, recordHistogram_ok, bind, Except.bind]
  cases s <;> simp [incrementCounter_ok]

theorem recordResourceRead_ok (t : MCPTelemetryClient) (u : JVal) (d : Nat)
    (s : Bool) : t.recordResourceRead u d s = Except.ok () := by
  unfold MCPTelemetryClient.recordResourceRead
  simp only [incrementCounter_ok, recordHistogram_ok, bind, Except.bind]

theorem recordPromptGet_ok (t : MCPTelemetryClient) (n : JVal) (d : Nat)
    (s : Bool) : t.recordPromptGet n d s = Except.ok () := by
  unfold MCPTelemetryClient.recordPromptGet
  simp only [incrementCounter_ok, recordHistogram_ok, bind, Except.bind]

/-! ## Claims about the invocation pipeline -/

/-- C4: On every execution path of the tool invocation pipeline, the
emission stage cannot alter the returned `ToolResult`: running
`handle_execute` with any telemetry client — including one whose
underlying SDK calls all raise — yields exactly the same result and
session as running it with no client, because the client's internal
`except Exception` blocks swallow every emission failure before the
pipeline's `finally` can observe it. -/
theorem handleExecute_emission_invariant (t : MCPTelemetryClient) (durS : Nat)
    (sess : Session) (command : ExecuteToolCommand) :
    ToolHandler.handleExecute (some t) durS sess command =
    ToolHandler.handleExecute none durS sess command := by
  rcases htry : ToolHandler.handleExecuteTry sess command with ⟨r, s, em, et⟩
  simp only [ToolHandler.handleExecute, htry, recordToolCall_ok]

/-- C3, counterexample: a handler that raises `TimeoutError("custom")`
is caught by the source's `except TimeoutError` arm (tool_handler.py:116
— on Python 3.11+ `asyncio.TimeoutError` is `builtins.TimeoutError`),
so the pipeline answers with the generic timed-out text, which does not
contain the exception message — refuting the claim's "its text contains
the exception message" for this raising handler. -/
theorem handleExecute_timeout_counterexample :
    (∃ sess',
      ToolHandler.handleExecute none 0 sessWithTimeoutTool
        { tool_name := JVal.str "slowish", arguments := JVal.obj [] } =
        (Except.ok (ToolResult.error "Tool execution timed out after 30.0s"),
         sess')) ∧
    ¬ ∃ pre post,
        "Tool execution timed out after 30.0s" = pre ++ "custom" ++ post := by
  constructor
  · exact ⟨_, rfl⟩
  · rintro ⟨pre, post, hcontra⟩
    have hinf : "custom".data <:+: "Tool execution timed out after 30.0s".data :=
      ⟨pre.data, post.data, by
        have hd := congrArg String.data hcontra
        simpa [String.data_append] using hd.symm⟩
    exact absurd hinf (by decide)

/-- C3, amended: `handle_execute` always returns a `ToolResult` and
never propagates an exception; when the resolved, enabled tool's handler
raises any exception other than `TimeoutError`, the returned result has
`is_error` set and its text contains the exception message; a
handler-raised `TimeoutError` is instead caught by the pipeline's
timeout arm and yields the generic timed-out text. -/
theorem handleExecute_never_raises (telemetry : Option MCPTelemetryClient)
    (durS : Nat) (sess : Session) (command : ExecuteToolCommand) :
    (∃ r sess',
      ToolHandler.handleExecute telemetry durS sess command =
        (Except.ok r, sess')) ∧
    (∀ (tool : Tool) (h : JVal → HandlerOutcome) (ty msg : String),
      sess.getToolJ command.tool_name = Except.ok (some tool) →
      tool.enabled = true →
      tool.handler = some h →
      h command.arguments = HandlerOutcome.raised ty msg →
      ty ≠ "TimeoutError" →
      ∃ sess',
        ToolHandler.handleExecute telemetry durS sess command =
          (Except.ok (ToolResult.error ("Tool execution failed: " ++ msg)), sess') ∧
        (ToolResult.error ("Tool execution failed: " ++ msg)).is_error = true ∧
        ∃ pre post, "Tool execution failed: " ++ msg = pre ++ msg ++ post) ∧
    (∀ (tool : Tool) (h : JVal → HandlerOutcome) (msg : String),
      sess.getToolJ command.tool_name = Except.ok (some tool) →
      tool.enabled = true →
      tool.handler = some h →
      h command.arguments = HandlerOutcome.raised "TimeoutError" msg →
      ∃ sess',
        ToolHandler.handleExecute telemetry durS sess command =
          (Except.ok (ToolResult.error ("Tool execution timed out after " ++
            pyFloatStr tool.timeout_seconds ++ "s")), sess')) := by
  refine ⟨?_, ?_, ?_⟩
  · rcases htry : ToolHandler.handleExecuteTry sess command with ⟨r, s, em, et⟩
    refine ⟨r, sess.addEvent (DomainEvent.toolExecuted sess.id command.tool_name s
      (durS * 1000) em), ?_⟩
    cases telemetry with
    | none => simp only [ToolHandler.handleExecute, htry]
    | some t => simp only [ToolHandler.handleExecute, htry, recordToolCall_ok]
  · intro tool h ty msg hfound henabled hhandler hraise hty
    have htry : ToolHandler.handleExecuteTry sess command =
        (ToolResult.error ("Tool execution failed: " ++ msg), false, some msg, some ty) := by
      unfold ToolHandler.handleExecuteTry
      rw [hfound]
      simp [henabled, Tool.execute, hhandler, hraise, hty]
    refine ⟨sess.addEvent (DomainEvent.toolExecuted sess.id command.tool_name false
      (durS * 1000) (some msg)), ?_, rfl, "Tool execution failed: ", "", by simp⟩
    cases telemetry with
    | none => simp only [ToolHandler.handleExecute, htry]
    | some t => simp only [ToolHandler.handleExecute, htry, recordToolCall_ok]
  · intro tool h msg hfound henabled hhandler hraise
    have htry : ToolHandler.handleExecuteTry sess command =
        (ToolResult.error ("Tool execution timed out after " ++
          pyFloatStr tool.timeout_seconds ++ "s"), false,
         some ("Tool execution timed out after " ++
          pyFloatStr tool.timeout_seconds ++ "s"), some "TimeoutError") := by
      unfold ToolHandler.handleExecuteTry
      rw [hfound]
      simp [henabled, Tool.execute, hhandler, hraise]
    refine ⟨sess.addEvent (DomainEvent.toolExecuted sess.id command.tool_name false
      (durS * 1000) (some ("Tool execution timed out after " ++
        pyFloatStr tool.timeout_seconds ++ "s"))), ?_⟩
    cases telemetry with
    | none => simp only [ToolHandler.handleExecute, htry]
    | some t => simp only [ToolHandler.handleExecute, htry, recordToolCall_ok]

/-- Witness for C3's amended theorem at a concrete raising tool. -/
theorem handleExecute_never_raises_witness :
    ∃ sess',
      ToolHandler.handleExecute none 0 sessWithRaisingTool
        { tool_name := JVal.str "boom", arguments := JVal.obj [] } =
        (Except.ok (ToolResult.error ("Tool execution failed: " ++ "kaboom")), sess') ∧
      (ToolResult.error ("Tool execution failed: " ++ "kaboom")).is_error = true ∧
      ∃ pre post, "Tool execution failed: " ++ "kaboom" = pre ++ "kaboom" ++ post :=
  (handleExecute_never_raises none 0 sessWithRaisingTool
    { tool_name := JVal.str "boom", arguments := JVal.obj [] }).2.1
    raisingTool (fun _ => HandlerOutcome.raised "RuntimeError" "kaboom")
    "RuntimeError" "kaboom" rfl rfl rfl rfl (by decide)

/-! ## Claims about the session lifecycle -/

/-- C8: `Session.close` is idempotent — the second call is a no-op: it
raises nothing (total by construction), preserves the terminal CLOSED
state and the `closed_at` stamped by the first call, and appends no
second `SessionClosed` event. -/
theorem session_close_idempotent (s : Session) (t1 t2 : Nat) :
    (s.close t1).close t2 = s.close t1 ∧
    (s.close t1).state = SessionState.closed ∧
    (s.state ≠ SessionState.closed → (s.close t1).closed_at = some t1) ∧
    ((s.close t1).close t2).events = (s.close t1).events := by
  by_cases h : s.state = SessionState.closed
  · simp [Session.close, Session.addEvent, h]
  · simp [Session.close, Session.addEvent, h]

/-- Witness for C8 on a concrete fresh session. -/
theorem session_close_idempotent_witness :
    ((sampleSession.close 5).close 9 = sampleSession.close 5) ∧
    ((sampleSession.close 5).state = SessionState.closed) ∧
    (sampleSession.state ≠ SessionState.closed →
      (sampleSession.close 5).closed_at = some 5) ∧
    (((sampleSession.close 5).close 9).events = (sampleSession.close 5).events) :=
  session_close_idempotent sampleSession 5 9

/-! ## Claims about resource lookup -/

theorem find_matches_of_no_exact (l : List Resource) (uri : String)
    (h : l.find? (fun r => r.uri == uri) = none) :
    l.find? (fun r => r.matchesUri uri) =
    l.find? (fun r => r.is_template && uri.startsWith (templateHead r.uri)) := by
  induction l with
  | nil => rfl
  | cons r rest ih =>
      rw [List.find?_cons] at h
      rcases hx : (r.uri == uri) with _ | _
      · rw [hx] at h
        simp only [List.find?_cons]
        cases ht : r.is_template with
        | false =>
            simp only [Resource.matchesUri, ht, Bool.not_false, if_true, hx,
              Bool.false_and]
            exact ih h
        | true =>
            simp only [Resource.matchesUri, ht, Bool.not_true, Bool.false_eq_true,
              if_false, Bool.true_and]
            cases hs : uri.startsWith (templateHead r.uri) with
            | false => exact ih h
            | true => rfl
      · rw [hx] at h
        simp at h

/-- C9: `Session.get_resource` agrees, on every session and URI, with
the specification's description `getResourceSpec`: exact match first,
then the first registered template whose literal prefix (portion before
the brace) is a prefix of the URI, else nothing; non-template resources
never match by prefix. -/
theorem getResource_matches_spec (s : Session) (uri : String) :
    s.getResource uri = getResourceSpec s.resources uri := by
  unfold Session.getResource getResourceSpec
  cases hfind : s.resources.find? (fun r => r.uri == uri) with
  | some r => rfl
  | none => exact find_matches_of_no_exact s.resources uri hfind

/-- C7: `Session.initializeClient` raises a validation-class error exactly in
the states READY, CLOSING and CLOSED; from CREATED or INITIALIZING it
succeeds, leaving the session READY with `initialized_at` stamped; a
second `initialize` on the same session therefore fails with a
state-conflict `ValueError`; and the server maps an `initialize` request
arriving while a session exists to an INVALID_PARAMS error response. -/
theorem session_initialize_gate :
    (∀ (s : Session) (now : Nat) (ci : ClientInfo) (cc : JVal),
      (∃ m, (s.initializeClient now ci cc).1 = Except.error (PyErr.valueError m)) ↔
      (s.state = SessionState.ready ∨ s.state = SessionState.closing ∨
       s.state = SessionState.closed)) ∧
    (∀ (s : Session) (now : Nat) (ci : ClientInfo) (cc : JVal),
      (s.state = SessionState.created ∨ s.state = SessionState.initializing) →
      (∃ v, (s.initializeClient now ci cc).1 = Except.ok v) ∧
      (s.initializeClient now ci cc).2.state = SessionState.ready ∧
      (s.initializeClient now ci cc).2.initialized_at = some now) ∧
    (∀ (s : Session) (now now2 : Nat) (ci ci2 : ClientInfo) (cc cc2 : JVal),
      (s.state = SessionState.created ∨ s.state = SessionState.initializing) →
      ∃ m, (((s.initializeClient now ci cc).2).initializeClient now2 ci2 cc2).1 =
        Except.error (PyErr.valueError m)) ∧
    (∀ (ctx : Ctx) (srv : Server) (params : JVal) (rid : Int),
      srv.session.isSome = true →
      handleRequest ctx srv
        [("jsonrpc", JVal.str "2.0"), ("id", JVal.num rid),
         ("method", JVal.str "initialize"), ("params", params)] =
      (some { id := some (JVal.num rid),
              payload := RespPayload.err
                { code := invalidParamsCode,
                  message := "Session already initialized", data := none } }, srv)) := by
  refine ⟨?_, ?_, ?_, ?_⟩
  · intro s now ci cc
    cases hs : s.state <;> simp [Session.initializeClient, hs, Session.addEvent]
  · intro s now ci cc hst
    rcases hst with h | h <;> simp [Session.initializeClient, h, Session.addEvent]
  · intro s now now2 ci ci2 cc cc2 hst
    rcases hst with h | h <;> simp [Session.initializeClient, h, Session.addEvent]
  · intro ctx srv params rid hs
    simp [handleRequest, dispatchMethod, handleInitializeRequest, hs, pyGet, pyGetD,
      List.lookup, jvalEqStr, jvalIsNull, makeResponse, makeError]

/-- Witness for C7's universally quantified conjuncts at concrete
inputs: a fresh session initializes once and refuses a second time, and
a server that already has a session answers `initialize` with an
INVALID_PARAMS response. -/
theorem session_initialize_gate_witness :
    (∃ m, ((sampleSession.initializeClient 1 { name := JVal.str "t", version := JVal.str "1" }
        (JVal.obj [])).2.initializeClient 2 { name := JVal.str "t", version := JVal.str "1" }
        (JVal.obj [])).1 = Except.error (PyErr.valueError m)) ∧
    handleRequest ctx0 srvReady
      [("jsonrpc", JVal.str "2.0"), ("id", JVal.num 1),
       ("method", JVal.str "initialize"), ("params", JVal.obj [])] =
    (some { id := some (JVal.num 1),
            payload := RespPayload.err
              { code := invalidParamsCode,
                message := "Session already initialized", data := none } }, srvReady) :=
  ⟨session_initialize_gate.2.2.1 sampleSession 1 2
      { name := JVal.str "t", version := JVal.str "1" }
      { name := JVal.str "t", version := JVal.str "1" }
      (JVal.obj []) (JVal.obj []) (Or.inl rfl),
   session_initialize_gate.2.2.2 ctx0 srvReady (JVal.obj []) 1 rfl⟩

/-- C10: the client's `protocolVersion` is irrelevant to `initialize`:
replacing its value by any other changes nothing about the outcome, and
whenever no session exists yet (and `clientInfo` is a JSON object, or
absent), the handler succeeds and the response's `protocolVersion` is
the server's fixed latest version `"2024-11-05"` — the request never
fails for version reasons. -/
theorem initialize_ignores_protocol_version :
    (∀ (ctx : Ctx) (srv : Server) (v w : JVal) (rest : List (String × JVal)),
      handleInitializeRequest ctx srv (JVal.obj (("protocolVersion", v) :: rest)) =
      handleInitializeRequest ctx srv (JVal.obj (("protocolVersion", w) :: rest))) ∧
    (∀ (ctx : Ctx) (srv : Server) (kvs ckvs : List (String × JVal)),
      srv.session = none →
      pyGetD kvs "clientInfo" (JVal.obj []) = JVal.obj ckvs →
      ∃ v srv',
        handleInitializeRequest ctx srv (JVal.obj kvs) = (Except.ok v, srv') ∧
        jvalLookup v "protocolVersion" = some (JVal.str "2024-11-05")) := by
  constructor
  · intro ctx srv v w rest
    simp [handleInitializeRequest, pyGetD, List.lookup]
  · intro ctx srv kvs ckvs hnone hci
    simp [handleInitializeRequest, hnone, hci, Session.initializeClient, Session.create,
      Session.addEvent, Session.buildInitializeResponse, MCPProtocolVersion.latest,
      latestVersionString, ServerInfo.toDict, jvalLookup, List.lookup]

/-- Witness for C10: a request carrying an unsupported version on a
fresh server still succeeds with `"2024-11-05"`, and swapping the
version value changes nothing. -/
theorem initialize_ignores_protocol_version_witness :
    (handleInitializeRequest ctx0 srv0
        (JVal.obj [("protocolVersion", JVal.str "1999-01-01")]) =
      handleInitializeRequest ctx0 srv0
        (JVal.obj [("protocolVersion", JVal.str "2024-11-05")])) ∧
    ∃ v srv',
      handleInitializeRequest ctx0 srv0
        (JVal.obj [("protocolVersion", JVal.str "1999-01-01")]) =
      (Except.ok v, srv') ∧
      jvalLookup v "protocolVersion" = some (JVal.str "2024-11-05") :=
  ⟨initialize_ignores_protocol_version.1 ctx0 srv0
      (JVal.str "1999-01-01") (JVal.str "2024-11-05") [],
   initialize_ignores_protocol_version.2 ctx0 srv0
      [("protocolVersion", JVal.str "1999-01-01")] [] rfl rfl⟩

/-! ## Claims about the read loop's transport handling -/

/-- C6, counterexample: on an unparseable line the response carries
`error.code = -32700` but `_make_response(None, ...)` omits the `id`
member entirely (it is `none` below), so no response with an `id`
member of value `null` exists at this input. -/
theorem parse_error_null_id_counterexample :
    (processLine ctx0 srv0 10
        (Except.error "Expecting value: line 1 column 1 (char 0)")).1 =
      some { id := none,
             payload := RespPayload.err
               { code := -32700,
                 message := "Parse error: Expecting value: line 1 column 1 (char 0)",
                 data := none } } ∧
    ¬ ∃ r, (processLine ctx0 srv0 10
        (Except.error "Expecting value: line 1 column 1 (char 0)")).1 = some r ∧
        r.id = some JVal.null := by
  constructor
  · rfl
  · rintro ⟨r, hr, hid⟩
    rw [show (processLine ctx0 srv0 10
        (Except.error "Expecting value: line 1 column 1 (char 0)")).1 =
      some { id := none,
             payload := RespPayload.err
               { code := -32700,
                 message := "Parse error: Expecting value: line 1 column 1 (char 0)",
                 data := none } } from rfl] at hr
    cases hr
    exact Option.noConfusion hid

/-- C6, amended: every non-empty stdin line within the size limit that
fails to parse as JSON gets a response whose `error.code` is -32700
(PARSE_ERROR) and which has no `id` member at all (rather than an `id`
of value `null`). -/
theorem parse_error_response (ctx : Ctx) (srv : Server) (lineLen : Nat)
    (e : String) (h0 : lineLen ≠ 0) (h1 : lineLen ≤ MAX_MESSAGE_SIZE) :
    processLine ctx srv lineLen (Except.error e) =
      (some { id := none,
              payload := RespPayload.err
                { code := parseErrorCode,
                  message := "Parse error: " ++ e, data := none } }, srv) := by
  simp [processLine, h0, Nat.not_lt.mpr h1, makeResponse, makeError, jvalIsNull,
    parseErrorCode]

/-- Witness for C6's amended theorem at a concrete bad line. -/
theorem parse_error_response_witness :
    processLine ctx0 srv0 7 (Except.error "Expecting value") =
      (some { id := none,
              payload := RespPayload.err
                { code := parseErrorCode,
                  message := "Parse error: " ++ "Expecting value", data := none } },
       srv0) :=
  parse_error_response ctx0 srv0 7 "Expecting value" (by decide) (by decide)

/-- C5, counterexample: an envelope without an `id` member but with a
wrong `jsonrpc` value is answered with an INVALID_REQUEST error response
— the version check in the read loop runs before the notification test,
so a response line is written even though the request is a
notification. -/
theorem notification_wrong_version_counterexample :
    (processLine ctx0 srv0 30
        (Except.ok (JVal.obj [("jsonrpc", JVal.str "1.0"),
                              ("method", JVal.str "ping")]))).1 =
      some { id := none,
             payload := RespPayload.err
               { code := -32600,
                 message := "Invalid JSON-RPC version", data := none } } := by
  rfl

/-- C5, amended: for every input line whose parsed envelope carries
`jsonrpc == "2.0"` and lacks an `id` member, the server writes no
response at all — whatever the method (known, unknown, or
`notifications/initialized`) and whatever any handler does, including
raising. (When the `jsonrpc` member is wrong, an INVALID_REQUEST
response is written even without an `id`; see the counterexample.) -/
theorem notification_no_response (ctx : Ctx) (srv : Server)
    (kvs : List (String × JVal)) (lineLen : Nat)
    (h0 : lineLen ≠ 0) (h1 : lineLen ≤ MAX_MESSAGE_SIZE)
    (hid : kvs.lookup "id" = none)
    (hver : kvs.lookup "jsonrpc" = some (JVal.str "2.0")) :
    (processLine ctx srv lineLen (Except.ok (JVal.obj kvs))).1 = none := by
  have hnull : jvalIsNull (pyGet kvs "id") = true := by
    simp [pyGet, pyGetD, hid, jvalIsNull]
  have hreq : (handleRequest ctx srv kvs).1 = none := by
    unfold handleRequest
    rcases hd : dispatchMethod ctx srv (pyGetD kvs "method" (JVal.str ""))
        (pyGetD kvs "params" (JVal.obj [])) with ⟨exc, srv2⟩
    rcases exc with d | err
    · cases d <;> simp [hd, hnull]
    · cases err <;> simp [hd, hnull]
  simp [processLine, h0, Nat.not_lt.mpr h1, pyGet, pyGetD, hver, jvalEqStr, hreq]

/-- Witness for C5's amended theorem: a well-versioned, id-less envelope
with an unknown method draws no response. -/
theorem notification_no_response_witness :
    (processLine ctx0 srv0 25
        (Except.ok (JVal.obj [("jsonrpc", JVal.str "2.0"),
                              ("method", JVal.str "no/such/method")]))).1 = none :=
  notification_no_response ctx0 srv0
    [("jsonrpc", JVal.str "2.0"), ("method", JVal.str "no/such/method")] 25
    (by decide) (by decide) rfl rfl

/-! ## Lifting lemmas: from a handler's outcome to the wire -/

theorem processLine_to_handleRequest (ctx : Ctx) (srv : Server) (lineLen : Nat)
    (kvs : List (String × JVal)) (h0 : lineLen ≠ 0)
    (h1 : lineLen ≤ MAX_MESSAGE_SIZE)
    (hver : kvs.lookup "jsonrpc" = some (JVal.str "2.0")) :
    processLine ctx srv lineLen (Except.ok (JVal.obj kvs)) =
    handleRequest ctx srv kvs := by
  simp [processLine, h0, Nat.not_lt.mpr h1, pyGet, pyGetD, hver, jvalEqStr]

theorem handleRequest_of_value (ctx : Ctx) (srv srv2 : Server)
    (kvs : List (String × JVal)) (v : JVal) (rid : Int)
    (hid : kvs.lookup "id" = some (JVal.num rid))
    (hd : dispatchMethod ctx srv (pyGetD kvs "method" (JVal.str ""))
      (pyGetD kvs "params" (JVal.obj [])) = (Except.ok (Dispatched.value v), srv2)) :
    handleRequest ctx srv kvs =
      (some { id := some (JVal.num rid), payload := RespPayload.result v }, srv2) := by
  have hpg : pyGet kvs "id" = JVal.num rid := by simp [pyGet, pyGetD, hid]
  unfold handleRequest
  simp [hd, hpg, jvalIsNull, makeResponse]

theorem handleRequest_of_valueError (ctx : Ctx) (srv srv2 : Server)
    (kvs : List (String × JVal)) (m : String) (rid : Int)
    (hid : kvs.lookup "id" = some (JVal.num rid))
    (hd : dispatchMethod ctx srv (pyGetD kvs "method" (JVal.str ""))
      (pyGetD kvs "params" (JVal.obj [])) =
      (Except.error (PyErr.valueError m), srv2)) :
    handleRequest ctx srv kvs =
      (some { id := some (JVal.num rid),
              payload := RespPayload.err
                { code := invalidParamsCode, message := m, data := none } }, srv2) := by
  have hpg : pyGet kvs "id" = JVal.num rid := by simp [pyGet, pyGetD, hid]
  unfold handleRequest
  simp [hd, hpg, jvalIsNull, makeResponse, makeError]

/-- C1, counterexample: after an `initialize` whose `clientInfo` was not
a dict, a session exists (the handler assigned it before raising) but
the tool handler was never installed; a `tools/call` naming a tool not
registered in that current session is then answered with an
INVALID_PARAMS JSON-RPC `error`, not a successful `isError` envelope —
refuting the claim's "for every session state in which tools/call is
dispatched". -/
theorem toolsCall_unknown_tool_counterexample :
    srvAnomalous.session.isSome = true ∧
    (srvAnomalous.session.map (fun s => s.getToolJ (JVal.str "nosuch"))) =
      some (Except.ok none) ∧
    processLine ctx0 srvAnomalous 90 (Except.ok (JVal.obj
      [("jsonrpc", JVal.str "2.0"), ("id", JVal.num 2),
       ("method", JVal.str "tools/call"),
       ("params", JVal.obj [("name", JVal.str "nosuch"),
                            ("arguments", JVal.obj [])])])) =
    (some { id := some (JVal.num 2),
            payload := RespPayload.err
              { code := invalidParamsCode, message := "Session not initialized",
                data := none } }, srvAnomalous) :=
  ⟨rfl, rfl, rfl⟩

/-- C1, amended: a `tools/call` naming an unregistered tool is answered
with a *successful* response (a `result`, never an `error` member) whose
result carries `isError: true` and whose content text contains the tool
name — in every server state where the tool handler is installed
alongside the session, i.e. every state reached through a successful
`initialize`, whatever the session's lifecycle state. (In the anomalous
state where `initialize` raised after creating the session but before
installing the tool handler, the server instead answers INVALID_PARAMS;
see the counterexample.) -/
theorem toolsCall_unknown_tool (ctx : Ctx) (srv : Server) (sess : Session)
    (name : String) (args : JVal) (rid : Int) (lineLen : Nat)
    (h0 : lineLen ≠ 0) (h1 : lineLen ≤ MAX_MESSAGE_SIZE)
    (hs : srv.session = some sess)
    (hth : srv.toolHandler = true)
    (hname : name ≠ "")
    (hmiss : sess.getToolJ (JVal.str name) = Except.ok none) :
    ∃ srv',
      processLine ctx srv lineLen (Except.ok (JVal.obj
        [("jsonrpc", JVal.str "2.0"), ("id", JVal.num rid),
         ("method", JVal.str "tools/call"),
         ("params", JVal.obj [("name", JVal.str name), ("arguments", args)])])) =
      (some { id := some (JVal.num rid),
              payload := RespPayload.result (JVal.obj
                [("content", JVal.arr [JVal.obj
                    [("type", JVal.str "text"),
                     ("text", JVal.str ("Tool not found: " ++ name))]]),
                 ("isError", JVal.bool true)]) }, srv') ∧
      ∃ pre post, "Tool not found: " ++ name = pre ++ name ++ post := by
  have htry : ToolHandler.handleExecuteTry sess
      { tool_name := JVal.str name, arguments := args } =
      (ToolResult.error ("Tool not found: " ++ name), false,
       some ("Tool not found: " ++ name), some "NotFoundError") := by
    unfold ToolHandler.handleExecuteTry
    rw [hmiss]
    simp [pyStr]
  have hexec : ToolHandler.handleExecute ctx.telemetry ctx.durS sess
      { tool_name := JVal.str name, arguments := args } =
      (Except.ok (ToolResult.error ("Tool not found: " ++ name)),
       sess.addEvent (DomainEvent.toolExecuted sess.id (JVal.str name) false
         (ctx.durS * 1000) (some ("Tool not found: " ++ name)))) := by
    cases hct : ctx.telemetry with
    | none => simp only [ToolHandler.handleExecute, htry]
    | some t => simp only [ToolHandler.handleExecute, htry, recordToolCall_ok]
  have htruthy : jvalTruthy (JVal.str name) = true := by
    simp [jvalTruthy, hname]
  have hcall : handleToolsCall ctx srv
      (JVal.obj [("name", JVal.str name), ("arguments", args)]) =
      (Except.ok (JVal.obj
        [("content", JVal.arr [JVal.obj
            [("type", JVal.str "text"),
             ("text", JVal.str ("Tool not found: " ++ name))]]),
         ("isError", JVal.bool true)]),
       { srv with session := some (sess.addEvent (DomainEvent.toolExecuted sess.id
           (JVal.str name) false (ctx.durS * 1000)
           (some ("Tool not found: " ++ name)))) }) := by
    simp [handleToolsCall, hs, hth, pyGet, pyGetD, List.lookup, htruthy, hexec,
      ToolResult.toDict, ToolResult.error, ToolResult.text]
  have hdisp : dispatchMethod ctx srv (JVal.str "tools/call")
      (JVal.obj [("name", JVal.str name), ("arguments", args)]) =
      (Except.ok (Dispatched.value (JVal.obj
        [("content", JVal.arr [JVal.obj
            [("type", JVal.str "text"),
             ("text", JVal.str ("Tool not found: " ++ name))]]),
         ("isError", JVal.bool true)])),
       { srv with session := some (sess.addEvent (DomainEvent.toolExecuted sess.id
           (JVal.str name) false (ctx.durS * 1000)
           (some ("Tool not found: " ++ name)))) }) := by
    simp [dispatchMethod, jvalEqStr, hcall]
  refine ⟨{ srv with session := some (sess.addEvent (DomainEvent.toolExecuted
      sess.id (JVal.str name) false (ctx.durS * 1000)
      (some ("Tool not found: " ++ name)))) }, ?_, "Tool not found: ", "", by simp⟩
  rw [processLine_to_handleRequest ctx srv lineLen
    [("jsonrpc", JVal.str "2.0"), ("id", JVal.num rid),
     ("method", JVal.str "tools/call"),
     ("params", JVal.obj [("name", JVal.str name), ("arguments", args)])]
    h0 h1 rfl]
  exact handleRequest_of_value ctx srv _ _ _ rid rfl hdisp

/-- Witness for C1's amended theorem: calling an unregistered tool on a
fully initialized server. -/
theorem toolsCall_unknown_tool_witness :
    ∃ srv',
      processLine ctx0 srvReady 90 (Except.ok (JVal.obj
        [("jsonrpc", JVal.str "2.0"), ("id", JVal.num 7),
         ("method", JVal.str "tools/call"),
         ("params", JVal.obj [("name", JVal.str "nosuch"),
                              ("arguments", JVal.obj [])])])) =
      (some { id := some (JVal.num 7),
              payload := RespPayload.result (JVal.obj
                [("content", JVal.arr [JVal.obj
                    [("type", JVal.str "text"),
                     ("text", JVal.str ("Tool not found: " ++ "nosuch"))]]),
                 ("isError", JVal.bool true)]) }, srv') ∧
      ∃ pre post, "Tool not found: " ++ "nosuch" = pre ++ "nosuch" ++ post :=
  toolsCall_unknown_tool ctx0 srvReady sampleSession "nosuch" (JVal.obj []) 7 90
    (by decide) (by decide) rfl rfl (by decide) rfl

/-- C2: a `resources/read` whose `uri` matches no registered resource —
neither exactly nor by template prefix — is answered with a JSON-RPC
`error` member of code INVALID_PARAMS (-32602), and by construction of
the response that excludes any `result` member (never a success envelope
with an `isError` flag). -/
theorem resourcesRead_not_found (ctx : Ctx) (srv : Server) (sess : Session)
    (uri : String) (rid : Int) (lineLen : Nat)
    (h0 : lineLen ≠ 0) (h1 : lineLen ≤ MAX_MESSAGE_SIZE)
    (hs : srv.session = some sess)
    (hmiss : sess.getResource uri = none) :
    ∃ msg,
      processLine ctx srv lineLen (Except.ok (JVal.obj
        [("jsonrpc", JVal.str "2.0"), ("id", JVal.num rid),
         ("method", JVal.str "resources/read"),
         ("params", JVal.obj [("uri", JVal.str uri)])])) =
      (some { id := some (JVal.num rid),
              payload := RespPayload.err
                { code := invalidParamsCode, message := msg, data := none } },
       srv) := by
  have hread : ∃ msg, handleResourcesRead ctx srv
      (JVal.obj [("uri", JVal.str uri)]) =
      (Except.error (PyErr.valueError msg), srv) := by
    by_cases huri : uri = ""
    · refine ⟨"Resource URI is required", ?_⟩
      simp [handleResourcesRead, hs, pyGet, pyGetD, List.lookup, huri, jvalTruthy]
    · refine ⟨"Resource not found: " ++ uri, ?_⟩
      have htruthy : jvalTruthy (JVal.str uri) = true := by
        simp [jvalTruthy, huri]
      have hgetj : sess.getResourceJ (JVal.str uri) = Except.ok none := by
        simp [Session.getResourceJ, hmiss]
      cases hct : ctx.telemetry with
      | none =>
          simp [handleResourcesRead, hs, pyGet, pyGetD, List.lookup, htruthy,
            hgetj, hct, pyStr]
      | some t =>
          simp [handleResourcesRead, hs, pyGet, pyGetD, List.lookup, htruthy,
            hgetj, hct, pyStr, recordResourceRead_ok]
  rcases hread with ⟨msg, hread⟩
  have hdisp : dispatchMethod ctx srv (JVal.str "resources/read")
      (JVal.obj [("uri", JVal.str uri)]) =
      (Except.error (PyErr.valueError msg), srv) := by
    simp [dispatchMethod, jvalEqStr, hread]
  refine ⟨msg, ?_⟩
  rw [processLine_to_handleRequest ctx srv lineLen
    [("jsonrpc", JVal.str "2.0"), ("id", JVal.num rid),
     ("method", JVal.str "resources/read"),
     ("params", JVal.obj [("uri", JVal.str uri)])]
    h0 h1 rfl]
  exact handleRequest_of_valueError ctx srv _ _ _ rid rfl hdisp

/-- Witness for C2: reading an unregistered URI on a live session. -/
theorem resourcesRead_not_found_witness :
    ∃ msg,
      processLine ctx0 srvReady 80 (Except.ok (JVal.obj
        [("jsonrpc", JVal.str "2.0"), ("id", JVal.num 3),
         ("method", JVal.str "resources/read"),
         ("params", JVal.obj [("uri", JVal.str "file:///nope")])])) =
      (some { id := some (JVal.num 3),
              payload := RespPayload.err
                { code := invalidParamsCode, message := msg, data := none } },
       srvReady) :=
  resourcesRead_not_found ctx0 srvReady sampleSession "file:///nope" 3 80
    (by decide) (by decide) rfl rfl

end TfoMcp
